import Mathlib

/-!
Verification of the safety-policy core of the supabase-mcp-server repository:
a shallow embedding of the risk model, the SQL statement validator, the API
path classifier, the migration naming logic and the query orchestration, with
theorems checking the specification's claims against the embedded code.

Python machine-level details are modelled as follows: enums become inductive
types, `str` enums keep their `.value` as an explicit function, fallible code
returns `Except`, and the asynchronous orchestration methods are embedded as
pure functions that also return the ordered list of delegated execution calls
they perform.
-/

/-! ## Risk model (supabase_mcp/safety/core.py) -/

/-- The `OperationRiskLevel` from safety/core.py: an IntEnum with LOW = 1,
MEDIUM = 2, HIGH = 3, EXTREME = 4. -/
inductive OperationRiskLevel where
  | low
  | medium
  | high
  | extreme
deriving Repr, DecidableEq

/-- The numeric value of the IntEnum member (LOW = 1 .. EXTREME = 4). -/
def OperationRiskLevel.toNat : OperationRiskLevel → Nat
  | .low => 1
  | .medium => 2
  | .high => 3
  | .extreme => 4

/-- The `SafetyMode` from safety/core.py: values "safe" and "unsafe".
The permissive member is named `unsafeMode` here. -/
inductive SafetyMode where
  | safe
  | unsafeMode
deriving Repr, DecidableEq

/-- The `SafetyConfigBase.is_operation_allowed` from safety/core.py, transliterated:
LOW is always allowed; MEDIUM and HIGH only in unsafe mode; everything else
(EXTREME) falls through to `False`. -/
def is_operation_allowed (risk_level : OperationRiskLevel) (mode : SafetyMode) : Bool :=
  if risk_level = OperationRiskLevel.low then true
  else if risk_level = OperationRiskLevel.medium then mode = SafetyMode.unsafeMode
  else if risk_level = OperationRiskLevel.high then mode = SafetyMode.unsafeMode
  else false

/-- The `SafetyConfigBase.needs_confirmation` from safety/core.py: true exactly for
risk levels greater than or equal to HIGH. -/
def needs_confirmation (risk_level : OperationRiskLevel) : Bool :=
  OperationRiskLevel.high.toNat ≤ risk_level.toNat

/-- C1: the policy evaluator allows LOW in any mode, MEDIUM and HIGH only in
unsafe mode, reports that HIGH needs confirmation, and never allows EXTREME in
any mode; `is_operation_allowed` takes no confirmation input at all, so the
EXTREME refusal is independent of any confirmation. -/
theorem c1_policy_evaluator :
    (∀ m, is_operation_allowed .low m = true) ∧
    (∀ m, is_operation_allowed .medium m = true ↔ m = SafetyMode.unsafeMode) ∧
    (∀ m, is_operation_allowed .high m = true ↔ m = SafetyMode.unsafeMode) ∧
    needs_confirmation .high = true ∧
    (∀ m, is_operation_allowed .extreme m = false) := by
  refine ⟨?_, ?_, ?_, rfl, ?_⟩ <;> intro m <;> cases m <;> simp [is_operation_allowed]

/-! ## SQL data model

The statement models below mirror `supabase_mcp/sql_validator/models.py`
(categories and commands) together with the fields the validator in
`services/database/sql/validator.py` constructs. -/

/-- The `SQLQueryCategory` from sql_validator/models.py. -/
inductive SQLQueryCategory where
  | dql
  | dml
  | ddl
  | tcl
  | dcl
  | postgresSpecific
  | other
deriving Repr, DecidableEq

/-- The `SQLQueryCommand` from sql_validator/models.py. -/
inductive SQLQueryCommand where
  | select
  | insert
  | update
  | delete
  | merge
  | create
  | alter
  | drop
  | truncate
  | comment
  | rename
  | grant
  | revoke
  | beginCmd
  | commit
  | rollback
  | savepoint
  | vacuum
  | analyze
  | explain
  | copy
  | listen
  | notify
  | prepare
  | execute
  | deallocate
  | unknown
deriving Repr, DecidableEq

/-- The `.value` string of a `SQLQueryCommand` member. -/
def SQLQueryCommand.value : SQLQueryCommand → String
  | .select => "SELECT"
  | .insert => "INSERT"
  | .update => "UPDATE"
  | .delete => "DELETE"
  | .merge => "MERGE"
  | .create => "CREATE"
  | .alter => "ALTER"
  | .drop => "DROP"
  | .truncate => "TRUNCATE"
  | .comment => "COMMENT"
  | .rename => "RENAME"
  | .grant => "GRANT"
  | .revoke => "REVOKE"
  | .beginCmd => "BEGIN"
  | .commit => "COMMIT"
  | .rollback => "ROLLBACK"
  | .savepoint => "SAVEPOINT"
  | .vacuum => "VACUUM"
  | .analyze => "ANALYZE"
  | .explain => "EXPLAIN"
  | .copy => "COPY"
  | .listen => "LISTEN"
  | .notify => "NOTIFY"
  | .prepare => "PREPARE"
  | .execute => "EXECUTE"
  | .deallocate => "DEALLOCATE"
  | .unknown => "UNKNOWN"

/-- Modelled from the spec: `ValidatedStatement` of
`services/database/sql/models.py`, which is absent from src/ (only its
constructor calls in the validator and its consumers are present). Fields are
exactly those the validator constructs: category, command, risk level, the
needs-migration flag, the nullable target object and schema names, and the
nullable source-text span of the statement. -/
structure ValidatedStatement where
  category : SQLQueryCategory
  command : SQLQueryCommand
  risk_level : OperationRiskLevel
  needs_migration : Bool
  object_type : Option String
  schema_name : Option String
  query : Option String
deriving Repr, DecidableEq

/-- Modelled from the spec: `QueryValidationResults` of
`services/database/sql/models.py`, absent from src/. It holds the original
text, the ordered statement list (default empty) and the running maximum risk
level, whose default is the bottom of the risk order (LOW) per the spec
("the maximum risk level across them"). -/
structure QueryValidationResults where
  statements : List ValidatedStatement := []
  highest_risk_level : OperationRiskLevel := .low
  original_query : String
deriving Repr, DecidableEq

/-- Modelled from the spec: the `needs_migration` method of
`QueryValidationResults` — true when any statement in the batch is flagged
needs-migration. -/
def QueryValidationResults.needs_migration (r : QueryValidationResults) : Bool :=
  r.statements.any (fun s => s.needs_migration)

/-! ## pglast parse-tree model

`pglast.parser.parse_sql` is an external dependency; its output is modelled as
an oracle value: a parse error message, or an optional list of raw statement
nodes (the validator's own code checks the tree against `None`, so the
embedding keeps that case even though the library returns a tuple or raises).
Only the node attributes the validator reads are modelled. -/

/-- A relation node: `relname` and `schemaname` attributes when present. -/
structure PgRelation where
  relname : Option String
  schemaname : Option String
deriving Repr, DecidableEq

/-- A statement node: its class name tag, the optional single-relation target
(`None` and a missing attribute are both `none`), the relation list of
multi-relation statements such as TRUNCATE, and the COPY direction flag. -/
structure PgNode where
  stmtType : String
  relation : Option PgRelation
  relations : List PgRelation
  is_from : Option Bool
deriving Repr, DecidableEq

/-- A raw statement wrapper: the optional inner node (the validator skips
entries without a `stmt` attribute) and the optional source location/length. -/
structure PgRawStmt where
  stmt : Option PgNode
  stmt_location : Option Nat
  stmt_len : Option Nat
deriving Repr, DecidableEq

/-- Outcome of running the external parser on a query string: a `ParseError`
message or a tree. -/
abbrev PgParseOutcome := Except String (Option (List PgRawStmt))

/-! ## Statement classification table
(supabase_mcp/safety/configs/sql_safety_config.py) -/

/-- One entry of `STATEMENT_CONFIG`: category, risk level and the
needs-migration flag. -/
structure StatementClassification where
  category : SQLQueryCategory
  risk_level : OperationRiskLevel
  needs_migration : Bool
deriving Repr, DecidableEq

/-- The `STATEMENT_CONFIG` from sql_safety_config.py, keyed by the pglast
statement-type tag; `none` for tags not in the table. -/
def STATEMENT_CONFIG : String → Option StatementClassification
  | "SelectStmt" => some ⟨.dql, .low, false⟩
  | "ExplainStmt" => some ⟨.postgresSpecific, .low, false⟩
  | "InsertStmt" => some ⟨.dml, .medium, false⟩
  | "UpdateStmt" => some ⟨.dml, .medium, false⟩
  | "DeleteStmt" => some ⟨.dml, .medium, false⟩
  | "MergeStmt" => some ⟨.dml, .medium, false⟩
  | "CreateStmt" => some ⟨.ddl, .medium, true⟩
  | "CreateTableAsStmt" => some ⟨.ddl, .medium, true⟩
  | "CreateSchemaStmt" => some ⟨.ddl, .medium, true⟩
  | "CreateExtensionStmt" => some ⟨.ddl, .medium, true⟩
  | "AlterTableStmt" => some ⟨.ddl, .medium, true⟩
  | "AlterDomainStmt" => some ⟨.ddl, .medium, true⟩
  | "CreateFunctionStmt" => some ⟨.ddl, .medium, true⟩
  | "IndexStmt" => some ⟨.ddl, .medium, true⟩
  | "CreateTrigStmt" => some ⟨.ddl, .medium, true⟩
  | "ViewStmt" => some ⟨.ddl, .medium, true⟩
  | "CommentStmt" => some ⟨.ddl, .medium, true⟩
  | "DropStmt" => some ⟨.ddl, .high, true⟩
  | "TruncateStmt" => some ⟨.ddl, .high, true⟩
  | "GrantStmt" => some ⟨.dcl, .medium, true⟩
  | "GrantRoleStmt" => some ⟨.dcl, .medium, true⟩
  | "RevokeStmt" => some ⟨.dcl, .medium, true⟩
  | "RevokeRoleStmt" => some ⟨.dcl, .medium, true⟩
  | "CreateRoleStmt" => some ⟨.dcl, .medium, true⟩
  | "AlterRoleStmt" => some ⟨.dcl, .medium, true⟩
  | "DropRoleStmt" => some ⟨.dcl, .high, true⟩
  | "TransactionStmt" => some ⟨.tcl, .low, false⟩
  | "VacuumStmt" => some ⟨.postgresSpecific, .medium, false⟩
  | "AnalyzeStmt" => some ⟨.postgresSpecific, .low, false⟩
  | "ClusterStmt" => some ⟨.postgresSpecific, .medium, false⟩
  | "CheckPointStmt" => some ⟨.postgresSpecific, .medium, false⟩
  | "PrepareStmt" => some ⟨.postgresSpecific, .low, false⟩
  | "ExecuteStmt" => some ⟨.postgresSpecific, .medium, false⟩
  | "DeallocateStmt" => some ⟨.postgresSpecific, .low, false⟩
  | "ListenStmt" => some ⟨.postgresSpecific, .low, false⟩
  | "NotifyStmt" => some ⟨.postgresSpecific, .medium, false⟩
  | _ => none

/-- The `classify_statement` from sql_safety_config.py: table lookup defaulting to
category OTHER, risk MEDIUM, no migration; special case for COPY, read when
the `is_from` attribute is present and falsy, write otherwise. -/
def classify_statement (stmtType : String) (node : PgNode) : StatementClassification :=
  let config := (STATEMENT_CONFIG stmtType).getD ⟨.other, .medium, false⟩
  if stmtType = "CopyStmt" then
    if node.is_from = some false then
      { config with category := .dql, risk_level := .low }
    else
      { config with category := .dml, risk_level := .medium }
  else config

/-- The `SQLValidator._map_to_command` from validator.py: pglast tag to command,
defaulting to UNKNOWN; TransactionStmt maps to BEGIN. -/
def map_to_command : String → SQLQueryCommand
  | "SelectStmt" => .select
  | "InsertStmt" => .insert
  | "UpdateStmt" => .update
  | "DeleteStmt" => .delete
  | "MergeStmt" => .merge
  | "CreateStmt" => .create
  | "AlterTableStmt" => .alter
  | "DropStmt" => .drop
  | "TruncateStmt" => .truncate
  | "CommentStmt" => .comment
  | "RenameStmt" => .rename
  | "GrantStmt" => .grant
  | "RevokeStmt" => .revoke
  | "TransactionStmt" => .beginCmd
  | "VacuumStmt" => .vacuum
  | "ExplainStmt" => .explain
  | "CopyStmt" => .copy
  | "ListenStmt" => .listen
  | "NotifyStmt" => .notify
  | "PrepareStmt" => .prepare
  | "ExecuteStmt" => .execute
  | "DeallocateStmt" => .deallocate
  | _ => .unknown

/-! ## SQL validator (services/database/sql/validator.py) -/

/-- The error kinds the embedded code raises. -/
inductive PyErr where
  | validationError (msg : String)
  | operationNotAllowedError (msg : String)
  | confirmationRequiredError (msg : String)
  | nameError (msg : String)
deriving Repr, DecidableEq

/-- The whitespace class of Python (`str.strip` with no argument and the
regex class `\\s`), over the ASCII range the inputs use. -/
def isPySpaceChar (c : Char) : Bool :=
  c == ' ' || c == '\t' || c == '\n' || c == '\r' || c == '\x0b' || c == '\x0c'

/-- The `SQLValidator.basic_query_validation`: reject input that is empty after
stripping whitespace, that is, input all of whose characters are whitespace. -/
def basic_query_validation (query : String) : Except PyErr String :=
  match query.toList.all isPySpaceChar with
  | true => .error (.validationError "Query cannot be empty")
  | false => .ok query

/-- The Python slice `original_query[loc : loc + len]` over code points. -/
def pySlice (s : String) (loc len : Nat) : String :=
  String.mk ((s.toList.drop loc).take len)

/-- Relation extraction of validator.py: the single-relation target when
present, else the first entry of the relation list. Returns
(object type, schema name). -/
def extractRelationInfo (node : PgNode) : Option String × Option String :=
  match node.relation with
  | some rel => (rel.relname, rel.schemaname)
  | none =>
    match node.relations with
    | [] => (none, none)
    | rel :: _ => (rel.relname, rel.schemaname)

/-- The body of validator.py's per-statement loop: build a
`ValidatedStatement` from a raw statement node. -/
def buildValidatedStatement (originalQuery : String) (stmt : PgRawStmt) (node : PgNode) :
    ValidatedStatement :=
  let info := extractRelationInfo node
  let classification := classify_statement node.stmtType node
  { category := classification.category
    command := map_to_command node.stmtType
    risk_level := classification.risk_level
    needs_migration := classification.needs_migration
    object_type := info.1
    schema_name := info.2
    query :=
      match stmt.stmt_location, stmt.stmt_len with
      | some loc, some len => some (pySlice originalQuery loc len)
      | _, _ => none }

/-- The IntEnum comparison update of validator.py: replace the running highest
risk level when the new statement's level is strictly greater. -/
def riskMax (current new : OperationRiskLevel) : OperationRiskLevel :=
  if current.toNat < new.toNat then new else current

/-- One iteration of validator.py's statement loop: skip entries without a
`stmt` attribute, otherwise append the built statement and update the running
maximum risk level. -/
def validateStep (originalQuery : String)
    (acc : List ValidatedStatement × OperationRiskLevel) (stmt : PgRawStmt) :
    List ValidatedStatement × OperationRiskLevel :=
  match stmt.stmt with
  | none => acc
  | some node =>
    let vs := buildValidatedStatement originalQuery stmt node
    (acc.1 ++ [vs], riskMax acc.2 vs.risk_level)

/-- The `SQLValidator.validate_statements` from validator.py: an early empty
result when the tree is `None`, otherwise the loop accumulating statements
(skipping entries without a node) and the running maximum risk level, then the
rejection of a batch with zero statements. -/
def validate_statements (originalQuery : String) (parseTree : Option (List PgRawStmt)) :
    Except PyErr QueryValidationResults :=
  match parseTree with
  | none => .ok { original_query := originalQuery }
  | some tree =>
    let acc := tree.foldl (validateStep originalQuery) ([], OperationRiskLevel.low)
    if acc.1 = [] then
      .error (.validationError "No queries were parsed - please check correctness of your query")
    else
      .ok { statements := acc.1, highest_risk_level := acc.2, original_query := originalQuery }

/-- The `except ParseError` clause of `validate_query`: a parser error is
re-raised as a `ValidationError` carrying the parser message. -/
def parseStage (parseResult : PgParseOutcome) : Except PyErr (Option (List PgRawStmt)) :=
  match parseResult with
  | .error msg => .error (.validationError ("SQL syntax error: " ++ msg))
  | .ok tree => .ok tree

/-- The loop at the end of `validate_query`: raise on the first statement of
category TCL, otherwise hand the result through. -/
def tclCheck (result : QueryValidationResults) : Except PyErr QueryValidationResults :=
  match result.statements.any (fun s => s.category == SQLQueryCategory.tcl) with
  | true =>
    .error (.validationError
      "Transaction control statements (BEGIN, COMMIT, ROLLBACK) are not allowed. Queries will be automatically wrapped in transactions by the system.")
  | false => .ok result

/-- The `SQLValidator.validate_query` from validator.py: basic validation, the
parse oracle (a `ParseError` becomes a validation error), statement
validation, then rejection of any batch containing a TCL statement, each
stage short-circuiting on error. The current safety mode is not an input:
validation is mode-independent. -/
def validate_query (sqlQuery : String) (parseResult : PgParseOutcome) :
    Except PyErr QueryValidationResults :=
  Except.bind (basic_query_validation sqlQuery) (fun q =>
    Except.bind (parseStage parseResult) (fun tree =>
      Except.bind (validate_statements q tree) tclCheck))

/-- The `SQLSafetyConfig.get_risk_level` from sql_safety_config.py: the risk of a
batch operation is the highest risk level already tracked in it. -/
def sql_get_risk_level (operation : QueryValidationResults) : OperationRiskLevel :=
  operation.highest_risk_level

/-! ## Characterization of the validator loop -/

/-- The statements the loop of `validate_statements` produces, in order. -/
def statementsOf (q : String) (tree : List PgRawStmt) : List ValidatedStatement :=
  tree.filterMap (fun stmt => stmt.stmt.map (fun node => buildValidatedStatement q stmt node))

theorem foldl_validateStep_fst (q : String) (tree : List PgRawStmt) :
    ∀ acc : List ValidatedStatement × OperationRiskLevel,
      (tree.foldl (validateStep q) acc).1 = acc.1 ++ statementsOf q tree := by
  induction tree with
  | nil => intro acc; simp [statementsOf]
  | cons stmt rest ih =>
    intro acc
    cases h : stmt.stmt with
    | none => simp [statementsOf, List.filterMap_cons, h, validateStep, ih]
    | some node =>
      simp [statementsOf, List.filterMap_cons, h, validateStep, ih]

theorem foldl_validateStep_snd (q : String) (tree : List PgRawStmt) :
    ∀ acc : List ValidatedStatement × OperationRiskLevel,
      (tree.foldl (validateStep q) acc).2 =
        ((statementsOf q tree).map (fun s => s.risk_level)).foldl riskMax acc.2 := by
  induction tree with
  | nil => intro acc; simp [statementsOf]
  | cons stmt rest ih =>
    intro acc
    cases h : stmt.stmt with
    | none => simp [statementsOf, List.filterMap_cons, h, validateStep, ih]
    | some node =>
      simp [statementsOf, List.filterMap_cons, h, validateStep, ih]

/-- The batch record `validate_statements` builds on success. -/
def vqResult (q : String) (tree : List PgRawStmt) : QueryValidationResults :=
  { statements := statementsOf q tree,
    highest_risk_level :=
      ((statementsOf q tree).map (fun s => s.risk_level)).foldl riskMax .low,
    original_query := q }

@[simp] theorem vqResult_statements (q : String) (tree : List PgRawStmt) :
    (vqResult q tree).statements = statementsOf q tree := rfl

@[simp] theorem vqResult_highest (q : String) (tree : List PgRawStmt) :
    (vqResult q tree).highest_risk_level =
      ((statementsOf q tree).map (fun s => s.risk_level)).foldl riskMax .low := rfl

theorem validate_statements_some (q : String) (tree : List PgRawStmt) :
    validate_statements q (some tree) =
      if statementsOf q tree = [] then
        .error (.validationError "No queries were parsed - please check correctness of your query")
      else
        .ok (vqResult q tree) := by
  simp only [validate_statements, foldl_validateStep_fst, foldl_validateStep_snd,
    List.nil_append, vqResult]

/-! ## The risk order and the running maximum -/

theorem riskMax_eq_or (a b : OperationRiskLevel) : riskMax a b = a ∨ riskMax a b = b := by
  unfold riskMax
  split
  · right; rfl
  · left; rfl

theorem le_riskMax_left (a b : OperationRiskLevel) : a.toNat ≤ (riskMax a b).toNat := by
  unfold riskMax
  split
  · omega
  · exact Nat.le_refl _

theorem le_riskMax_right (a b : OperationRiskLevel) : b.toNat ≤ (riskMax a b).toNat := by
  unfold riskMax
  split
  · exact Nat.le_refl _
  · omega

theorem le_foldl_riskMax (l : List OperationRiskLevel) :
    ∀ a : OperationRiskLevel, a.toNat ≤ (l.foldl riskMax a).toNat := by
  induction l with
  | nil => intro a; exact Nat.le_refl _
  | cons b rest ih =>
    intro a
    exact Nat.le_trans (le_riskMax_left a b) (ih (riskMax a b))

theorem mem_le_foldl_riskMax (l : List OperationRiskLevel) :
    ∀ (a x : OperationRiskLevel), x ∈ l → x.toNat ≤ (l.foldl riskMax a).toNat := by
  induction l with
  | nil => intro a x hx; cases hx
  | cons b rest ih =>
    intro a x hx
    rcases List.mem_cons.mp hx with h | h
    · subst h
      exact Nat.le_trans (le_riskMax_right a x) (le_foldl_riskMax rest (riskMax a x))
    · exact ih (riskMax a b) x h

theorem foldl_riskMax_mem (l : List OperationRiskLevel) :
    ∀ a : OperationRiskLevel, l.foldl riskMax a = a ∨ l.foldl riskMax a ∈ l := by
  induction l with
  | nil => intro a; left; rfl
  | cons b rest ih =>
    intro a
    rcases ih (riskMax a b) with h | h
    · rcases riskMax_eq_or a b with hab | hab
      · left; rw [List.foldl_cons, h, hab]
      · right; rw [List.foldl_cons, h, hab]; exact List.mem_cons_self _ _
    · right; exact List.mem_cons_of_mem _ h

theorem one_le_risk_toNat (x : OperationRiskLevel) : 1 ≤ x.toNat := by
  cases x <;> simp [OperationRiskLevel.toNat]

theorem risk_toNat_inj (x y : OperationRiskLevel) (h : x.toNat = y.toNat) : x = y := by
  cases x <;> cases y <;> first | rfl | simp [OperationRiskLevel.toNat] at h

/-- C4: the recorded `highest_risk_level` of a successfully validated batch is
the maximum of the per-statement risk levels under the order
LOW < MEDIUM < HIGH < EXTREME (it bounds every statement's level and is
attained by one of them), and `SQLSafetyConfig.get_risk_level` — the value the
policy evaluator receives — is exactly that recorded maximum. -/
theorem c4_highest_risk_is_max :
    ∀ (q : String) (tree : List PgRawStmt) (r : QueryValidationResults),
      validate_statements q (some tree) = .ok r →
      (OperationRiskLevel.low.toNat < OperationRiskLevel.medium.toNat ∧
        OperationRiskLevel.medium.toNat < OperationRiskLevel.high.toNat ∧
        OperationRiskLevel.high.toNat < OperationRiskLevel.extreme.toNat) ∧
      (∀ s ∈ r.statements, s.risk_level.toNat ≤ r.highest_risk_level.toNat) ∧
      r.highest_risk_level ∈ r.statements.map (fun s => s.risk_level) ∧
      sql_get_risk_level r = r.highest_risk_level := by
  intro q tree r h
  rw [validate_statements_some] at h
  by_cases hnil : statementsOf q tree = []
  · rw [if_pos hnil] at h; cases h
  · rw [if_neg hnil] at h
    injection h with h2
    subst h2
    refine ⟨by decide, ?_, ?_, rfl⟩
    · intro s hs
      rw [vqResult_statements] at hs
      rw [vqResult_highest]
      exact mem_le_foldl_riskMax _ _ _ (List.mem_map_of_mem _ hs)
    · rw [vqResult_statements, vqResult_highest]
      rcases foldl_riskMax_mem ((statementsOf q tree).map (fun s => s.risk_level)) .low
        with hlow | hmem
      · have hmapne : (statementsOf q tree).map (fun s => s.risk_level) ≠ [] := by
          simpa using hnil
        obtain ⟨x, hx⟩ := List.exists_mem_of_ne_nil _ hmapne
        have hle := mem_le_foldl_riskMax _ OperationRiskLevel.low x hx
        rw [hlow] at hle
        have h1 := one_le_risk_toNat x
        have hxlow : x = OperationRiskLevel.low := by
          apply risk_toNat_inj
          have hl1 : OperationRiskLevel.low.toNat = 1 := rfl
          omega
        rw [hlow, ← hxlow]
        exact hx
      · exact hmem

/-- Demo oracle data shared by the witnesses: the parse tree pglast would
produce for a SELECT plus a DROP. -/
def selNode : PgNode := ⟨"SelectStmt", none, [], none⟩

def dropNode : PgNode := ⟨"DropStmt", some ⟨some "t", none⟩, [], none⟩

def beginNode : PgNode := ⟨"TransactionStmt", none, [], none⟩

def qDemo : String := "SELECT 1; DROP TABLE t"

def treeDemo : List PgRawStmt :=
  [⟨some selNode, some 0, some 8⟩, ⟨some dropNode, some 10, some 12⟩]

def vsSel : ValidatedStatement :=
  ⟨.dql, .select, .low, false, none, none, some "SELECT 1"⟩

def vsDrop : ValidatedStatement :=
  ⟨.ddl, .drop, .high, true, some "t", none, some "DROP TABLE t"⟩

def rDemo : QueryValidationResults := ⟨[vsSel, vsDrop], .high, qDemo⟩

theorem c4_highest_risk_is_max_witness :
    validate_statements qDemo (some treeDemo) = .ok rDemo ∧
    ((OperationRiskLevel.low.toNat < OperationRiskLevel.medium.toNat ∧
        OperationRiskLevel.medium.toNat < OperationRiskLevel.high.toNat ∧
        OperationRiskLevel.high.toNat < OperationRiskLevel.extreme.toNat) ∧
      (∀ s ∈ rDemo.statements, s.risk_level.toNat ≤ rDemo.highest_risk_level.toNat) ∧
      rDemo.highest_risk_level ∈ rDemo.statements.map (fun s => s.risk_level) ∧
      sql_get_risk_level rDemo = rDemo.highest_risk_level) :=
  ⟨by rfl, c4_highest_risk_is_max qDemo treeDemo rDemo (by rfl)⟩

/-! ## Rejection of transaction control (claim C3) -/

/-- Whether a raw parse-tree entry carries a statement that the classification
table places in category TCL (pglast tags BEGIN/COMMIT/ROLLBACK/SAVEPOINT all
as `TransactionStmt`). -/
def rawStmtIsTCL (stmt : PgRawStmt) : Bool :=
  match stmt.stmt with
  | some node => (classify_statement node.stmtType node).category == SQLQueryCategory.tcl
  | none => false

theorem except_bind_ok {a : Type} {b : Type} (x : a) (f : a → Except PyErr b) :
    Except.bind (Except.ok x) f = f x := rfl

theorem except_bind_error {a : Type} {b : Type} (e : PyErr) (f : a → Except PyErr b) :
    Except.bind (Except.error e) f = (Except.error e : Except PyErr b) := rfl

theorem basic_query_validation_empty {q : String} (hb : q.toList.all isPySpaceChar = true) :
    basic_query_validation q = .error (.validationError "Query cannot be empty") := by
  unfold basic_query_validation
  rw [hb]

theorem basic_query_validation_ok {q : String} (hb : q.toList.all isPySpaceChar = false) :
    basic_query_validation q = .ok q := by
  unfold basic_query_validation
  rw [hb]

theorem tclCheck_error {r : QueryValidationResults}
    (h : r.statements.any (fun s => s.category == SQLQueryCategory.tcl) = true) :
    tclCheck r = .error (.validationError
      "Transaction control statements (BEGIN, COMMIT, ROLLBACK) are not allowed. Queries will be automatically wrapped in transactions by the system.") := by
  unfold tclCheck
  rw [h]

theorem tclCheck_ok {r : QueryValidationResults}
    (h : r.statements.any (fun s => s.category == SQLQueryCategory.tcl) = false) :
    tclCheck r = .ok r := by
  unfold tclCheck
  rw [h]

theorem bool_eq_false_of_ne_true {b : Bool} (h : ¬b = true) : b = false := by
  cases b
  · rfl
  · exact absurd rfl h

/-- The four-way case analysis `validate_query` performs on a parse tree. -/
theorem validate_query_ok_some (q : String) (tree : List PgRawStmt) :
    validate_query q (.ok (some tree)) =
      if q.toList.all isPySpaceChar = true then
        .error (.validationError "Query cannot be empty")
      else if statementsOf q tree = [] then
        .error (.validationError "No queries were parsed - please check correctness of your query")
      else if (statementsOf q tree).any (fun s => s.category == SQLQueryCategory.tcl) = true then
        .error (.validationError
          "Transaction control statements (BEGIN, COMMIT, ROLLBACK) are not allowed. Queries will be automatically wrapped in transactions by the system.")
      else
        .ok (vqResult q tree) := by
  unfold validate_query
  by_cases hb : q.toList.all isPySpaceChar = true
  · rw [if_pos hb, basic_query_validation_empty hb, except_bind_error]
  · have hb2 := bool_eq_false_of_ne_true hb
    rw [if_neg hb, basic_query_validation_ok hb2, except_bind_ok]
    show Except.bind (validate_statements q (some tree)) tclCheck = _
    rw [validate_statements_some]
    by_cases hnil : statementsOf q tree = []
    · rw [if_pos hnil, if_pos hnil, except_bind_error]
    · rw [if_neg hnil, if_neg hnil, except_bind_ok]
      by_cases hany : (statementsOf q tree).any (fun s => s.category == SQLQueryCategory.tcl) = true
      · rw [if_pos hany]
        exact tclCheck_error (by rw [vqResult_statements]; exact hany)
      · have hany2 := bool_eq_false_of_ne_true hany
        rw [if_neg hany]
        exact tclCheck_ok (by rw [vqResult_statements]; exact hany2)

/-- C3: whenever the parse tree of the input contains a top-level statement
classified into category TCL, `validate_query` fails with a `ValidationError`
and never returns a validation result; the safety mode is not even an input
of `validate_query`, so this holds in every mode. -/
theorem c3_tcl_rejected :
    ∀ (q : String) (tree : List PgRawStmt),
      tree.any rawStmtIsTCL = true →
      ∃ msg, validate_query q (.ok (some tree)) = .error (.validationError msg) := by
  intro q tree h
  obtain ⟨stmt, hmem, hstcl⟩ := List.any_eq_true.mp h
  cases hnode : stmt.stmt with
  | none => rw [rawStmtIsTCL, hnode] at hstcl; cases hstcl
  | some node =>
    rw [rawStmtIsTCL, hnode] at hstcl
    have hcat : (classify_statement node.stmtType node).category = SQLQueryCategory.tcl :=
      eq_of_beq hstcl
    rw [validate_query_ok_some]
    by_cases hb : q.toList.all isPySpaceChar = true
    · exact ⟨"Query cannot be empty", by rw [if_pos hb]⟩
    · have hvs : buildValidatedStatement q stmt node ∈ statementsOf q tree :=
        List.mem_filterMap.mpr ⟨stmt, hmem, by rw [hnode]; rfl⟩
      have hne : statementsOf q tree ≠ [] := List.ne_nil_of_mem hvs
      have hany : (statementsOf q tree).any (fun s => s.category == SQLQueryCategory.tcl) = true :=
        List.any_eq_true.mpr ⟨_, hvs, by simp [buildValidatedStatement, hcat]⟩
      exact ⟨"Transaction control statements (BEGIN, COMMIT, ROLLBACK) are not allowed. Queries will be automatically wrapped in transactions by the system.",
        by rw [if_neg hb, if_neg hne, if_pos hany]⟩

theorem c3_tcl_rejected_witness :
    [PgRawStmt.mk (some beginNode) (some 0) (some 5)].any rawStmtIsTCL = true ∧
    ∃ msg, validate_query "BEGIN"
        (.ok (some [PgRawStmt.mk (some beginNode) (some 0) (some 5)])) =
      .error (.validationError msg) :=
  ⟨by decide, c3_tcl_rejected "BEGIN" [PgRawStmt.mk (some beginNode) (some 0) (some 5)]
    (by decide)⟩

/-! ## Non-empty validation results (claim C9) -/

/-- C9: `validate_query` never hands back an empty batch: when the external
parser yields a statement tuple (its contract — it returns a tuple of raw
statements or raises a ParseError, never `None`), a successful validation
result has a non-empty statement list, and a parser error always becomes a
validation error. -/
theorem c9_result_nonempty :
    (∀ (q : String) (tree : List PgRawStmt) (r : QueryValidationResults),
      validate_query q (.ok (some tree)) = .ok r → r.statements ≠ []) ∧
    (∀ (q msg : String), ∃ e, validate_query q (.error msg) = .error e) := by
  constructor
  · intro q tree r h
    rw [validate_query_ok_some] at h
    by_cases hb : q.toList.all isPySpaceChar = true
    · rw [if_pos hb] at h; cases h
    · rw [if_neg hb] at h
      by_cases hnil : statementsOf q tree = []
      · rw [if_pos hnil] at h; cases h
      · rw [if_neg hnil] at h
        by_cases hany : (statementsOf q tree).any
            (fun s => s.category == SQLQueryCategory.tcl) = true
        · rw [if_pos hany] at h; cases h
        · rw [if_neg hany] at h
          injection h with h2
          subst h2
          rw [vqResult_statements]
          exact hnil
  · intro q msg
    unfold validate_query
    by_cases hb : q.toList.all isPySpaceChar = true
    · refine ⟨.validationError "Query cannot be empty", ?_⟩
      rw [basic_query_validation_empty hb, except_bind_error]
    · have hb2 := bool_eq_false_of_ne_true hb
      refine ⟨.validationError ("SQL syntax error: " ++ msg), ?_⟩
      rw [basic_query_validation_ok hb2, except_bind_ok]
      rfl

theorem c9_result_nonempty_witness :
    validate_query qDemo (.ok (some treeDemo)) = .ok rDemo ∧ rDemo.statements ≠ [] :=
  ⟨by rfl, c9_result_nonempty.1 qDemo treeDemo rDemo (by rfl)⟩

/-! ## API path classifier (supabase_mcp/safety/configs/api_safety_config.py) -/

/-- Python `str.replace` over code points: replace non-overlapping occurrences
left to right. Structural fuel (never less than the scanned length) keeps the
definition computable by reduction; behavior is the Python one for the
non-empty patterns used here. -/
def listReplaceGo (pat rep : List Char) : Nat → List Char → List Char
  | _, [] => []
  | 0, l => l
  | fuel + 1, c :: rest =>
    if pat ≠ [] ∧ pat.isPrefixOf (c :: rest) then
      rep ++ listReplaceGo pat rep fuel ((c :: rest).drop pat.length)
    else
      c :: listReplaceGo pat rep fuel rest

/-- Python `str.replace` on strings. -/
def pyReplace (s pat rep : String) : String :=
  String.mk (listReplaceGo pat.toList rep.toList s.toList.length s.toList)

/-- Python `str.endswith("$")`: the last character is a dollar. -/
def endsWithDollar (s : String) : Bool :=
  match s.toList.getLast? with
  | some c => c == '$'
  | none => false

/-- The `APISafetyConfig._convert_pattern_to_regex`: substitute the six listed
placeholders with the one-segment wildcard and append the end anchor. Any
other placeholder (such as the provider-id one) is left verbatim, and a
verbatim brace group that is not a valid counted repetition is a literal for
the Python regex engine. -/
def convert_pattern_to_regex (pattern : String) : String :=
  let r1 := pyReplace pattern "{ref}" "[^/]+"
  let r2 := pyReplace r1 "{id}" "[^/]+"
  let r3 := pyReplace r2 "{slug}" "[^/]+"
  let r4 := pyReplace r3 "{table}" "[^/]+"
  let r5 := pyReplace r4 "{branch_id}" "[^/]+"
  let r6 := pyReplace r5 "{function_slug}" "[^/]+"
  if endsWithDollar r6 then r6 else r6 ++ "$"

/-- An atom of the regex dialect the conversion emits: a literal character,
the one-segment wildcard `[^/]+`, or the end anchor. -/
inductive RegexAtom where
  | lit (c : Char)
  | anySeg
  | endAnchor
deriving Repr, DecidableEq

/-- Read the emitted regex back as a list of atoms. -/
def regexAtoms : List Char → List RegexAtom
  | [] => []
  | '[' :: '^' :: '/' :: ']' :: '+' :: rest => .anySeg :: regexAtoms rest
  | '$' :: rest => .endAnchor :: regexAtoms rest
  | c :: rest => .lit c :: regexAtoms rest

/-- The `re.match` of the emitted dialect (prefix-anchored; the wildcard greedily
takes one or more non-slash characters with backtracking; the dollar matches
only at the very end — the real engine would also accept a position before a
final newline, which no path contains). Fuel bounds the backtracking walk;
`atoms.length + input.length + 1` suffices since every step shrinks their
sum. -/
def matchAtomsGo : Nat → List RegexAtom → List Char → Bool
  | 0, _, _ => false
  | fuel + 1, atoms, s =>
    match atoms, s with
    | [], _ => true
    | .endAnchor :: rest, [] => matchAtomsGo fuel rest []
    | .endAnchor :: _, _ :: _ => false
    | .lit _ :: _, [] => false
    | .lit c :: rest, x :: srest => c == x && matchAtomsGo fuel rest srest
    | .anySeg :: _, [] => false
    | .anySeg :: rest, x :: srest =>
      !(x == '/') && (matchAtomsGo fuel rest srest || matchAtomsGo fuel (.anySeg :: rest) srest)

/-- The `re.match(regex, path)` restricted to the emitted dialect, as a whole-path
test (the conversion always appends the end anchor). -/
def reMatch (regex path : String) : Bool :=
  let atoms := regexAtoms regex.toList
  matchAtomsGo (atoms.length + path.toList.length + 1) atoms path.toList

/-- The `APISafetyConfig.PATH_SAFETY_CONFIG`: the static risk tiers, each mapping
an HTTP method to its path templates, transcribed in table order. -/
def PATH_SAFETY_CONFIG : OperationRiskLevel → List (String × List String)
  | .extreme =>
    [("DELETE",
      ["/v1/projects/{ref}"])]
  | .high =>
    [("DELETE",
      ["/v1/projects/{ref}/branches/{branch_id}",
       "/v1/projects/{ref}/branches",
       "/v1/projects/{ref}/custom-hostname",
       "/v1/projects/{ref}/vanity-subdomain",
       "/v1/projects/{ref}/network-bans",
       "/v1/projects/{ref}/secrets",
       "/v1/projects/{ref}/functions/{function_slug}",
       "/v1/projects/{ref}/api-keys/{id}",
       "/v1/projects/{ref}/config/auth/sso/providers/{provider_id}",
       "/v1/projects/{ref}/config/auth/signing-keys/{id}"]),
     ("POST",
      ["/v1/projects/{ref}/pause",
       "/v1/projects/{ref}/restore",
       "/v1/projects/{ref}/upgrade",
       "/v1/projects/{ref}/read-replicas/remove",
       "/v1/projects/{ref}/restore/cancel",
       "/v1/projects/{ref}/readonly/temporary-disable"])]
  | .medium =>
    [("POST",
      ["/v1/projects",
       "/v1/organizations",
       "/v1/projects/{ref}/branches",
       "/v1/projects/{ref}/branches/{branch_id}/push",
       "/v1/projects/{ref}/branches/{branch_id}/reset",
       "/v1/projects/{ref}/custom-hostname/initialize",
       "/v1/projects/{ref}/custom-hostname/reverify",
       "/v1/projects/{ref}/custom-hostname/activate",
       "/v1/projects/{ref}/network-bans/retrieve",
       "/v1/projects/{ref}/network-restrictions/apply",
       "/v1/projects/{ref}/secrets",
       "/v1/projects/{ref}/upgrade/status",
       "/v1/projects/{ref}/database/webhooks/enable",
       "/v1/projects/{ref}/functions",
       "/v1/projects/{ref}/functions/deploy",
       "/v1/projects/{ref}/config/auth/sso/providers",
       "/v1/projects/{ref}/database/backups/restore-pitr",
       "/v1/projects/{ref}/read-replicas/setup",
       "/v1/projects/{ref}/database/query",
       "/v1/projects/{ref}/config/auth/signing-keys",
       "/v1/oauth/token",
       "/v1/oauth/revoke",
       "/v1/projects/{ref}/api-keys"]),
     ("PATCH",
      ["/v1/projects/{ref}/config/auth",
       "/v1/projects/{ref}/config/database/pooler",
       "/v1/projects/{ref}/postgrest",
       "/v1/projects/{ref}/functions/{function_slug}",
       "/v1/projects/{ref}/config/storage",
       "/v1/branches/{branch_id}",
       "/v1/projects/{ref}/api-keys/{id}",
       "/v1/projects/{ref}/config/auth/signing-keys/{id}"]),
     ("PUT",
      ["/v1/projects/{ref}/config/database/postgres",
       "/v1/projects/{ref}/pgsodium",
       "/v1/projects/{ref}/ssl-enforcement",
       "/v1/projects/{ref}/functions",
       "/v1/projects/{ref}/config/auth/sso/providers/{provider_id}"])]
  | .low => []

/-- The `method not in patterns` / `patterns[method]` dictionary access,
keyed by the method string (the table keys are string-valued enum members). -/
def lookupPatterns (cfg : List (String × List String)) (method : String) :
    Option (List String) :=
  (cfg.find? (fun p => p.1 == method)).map (fun p => p.2)

/-- The `APISafetyConfig._path_matches_risk_level` as the source executes: a
method absent from the tier's table returns False without touching the regex
machinery, but the pattern loop's first iteration evaluates `re.match` and
the module never imports `re`, so any method hit raises `NameError` (every
method present in a tier has a non-empty pattern list). -/
def path_matches_risk_level (method path : String) (risk_level : OperationRiskLevel) :
    Except PyErr Bool :=
  match lookupPatterns (PATH_SAFETY_CONFIG risk_level) method with
  | none => .ok false
  | some [] => .ok false
  | some (_ :: _) => .error (.nameError "name re is not defined")

/-- The `APISafetyConfig.get_risk_level` as the source executes: walk the tiers
from EXTREME down to HIGH then MEDIUM (the reverse-sorted table keys),
short-circuiting on the first match or the first raised error, and default to
MEDIUM. -/
def api_get_risk_level (method path : String) : Except PyErr OperationRiskLevel :=
  match path_matches_risk_level method path .extreme with
  | .error e => .error e
  | .ok true => .ok .extreme
  | .ok false =>
    match path_matches_risk_level method path .high with
    | .error e => .error e
    | .ok true => .ok .high
    | .ok false =>
      match path_matches_risk_level method path .medium with
      | .error e => .error e
      | .ok true => .ok .medium
      | .ok false => .ok .medium

/-- Modelled from the spec: `_path_matches_risk_level` as specified — the
pattern test the source intends, with the regex module available (the source
file omits `import re`, so the code as written cannot reach this behavior). -/
def path_matches_risk_level_spec (method path : String) (risk_level : OperationRiskLevel) :
    Bool :=
  match lookupPatterns (PATH_SAFETY_CONFIG risk_level) method with
  | none => false
  | some patterns => patterns.any (fun pattern => reMatch (convert_pattern_to_regex pattern) path)

/-- Modelled from the spec: `get_risk_level` over the specified matcher, with
the MEDIUM default for anything unmatched. -/
def api_get_risk_level_spec (method path : String) : OperationRiskLevel :=
  if path_matches_risk_level_spec method path .extreme then .extreme
  else if path_matches_risk_level_spec method path .high then .high
  else if path_matches_risk_level_spec method path .medium then .medium
  else .medium

/-- C5 (code bug evidence): the classifier as written raises `NameError` on
`DELETE /v1/projects/{ref}` — the module uses `re.match` without importing
`re` — where the claim expects EXTREME; the intended classifier (modelled
with the regex available) does yield EXTREME there and MEDIUM for
`POST /v1/projects`. Even then, the provider-id placeholder is not in the
substitution list, so the HIGH template for deleting an SSO provider matches
only its literal brace text and a concrete provider path falls to the MEDIUM
default, against the claim's every-placeholder reading. -/
theorem c5_path_classifier_name_error :
    api_get_risk_level "DELETE" "/v1/projects/abc123" =
      .error (.nameError "name re is not defined") ∧
    api_get_risk_level_spec "DELETE" "/v1/projects/abc123" = .extreme ∧
    api_get_risk_level_spec "POST" "/v1/projects" = .medium ∧
    api_get_risk_level "POST" "/v1/projects" =
      .error (.nameError "name re is not defined") ∧
    api_get_risk_level_spec "DELETE" "/v1/projects/p/config/auth/sso/providers/xyz" =
      .medium :=
  ⟨rfl, rfl, rfl, rfl, rfl⟩

/-- C10: no risk tier's method table has a GET entry, so the classifier
returns MEDIUM for method GET on every path — without ever reaching the
pattern loop (hence no `NameError`) — and MEDIUM is blocked in SAFE mode. -/
theorem c10_get_always_medium :
    (∀ rl : OperationRiskLevel, lookupPatterns (PATH_SAFETY_CONFIG rl) "GET" = none) ∧
    (∀ path : String, api_get_risk_level "GET" path = .ok .medium) ∧
    (∀ path : String, api_get_risk_level_spec "GET" path = .medium) ∧
    is_operation_allowed .medium .safe = false := by
  refine ⟨?_, ?_, ?_, rfl⟩
  · intro rl
    cases rl <;> rfl
  · intro path
    rfl
  · intro path
    rfl

/-! ## Migration naming (services/database/migration_manager.py) -/

/-- The word class of the regex `\\w` (over the ASCII range the inputs use):
letters, digits and the underscore. -/
def isPyWordChar (c : Char) : Bool :=
  c.isAlphanum || c == '_'

/-- The `RANDOM_WORDS` from migration_manager.py. -/
def RANDOM_WORDS : List String :=
  ["apple", "banana", "cherry", "date", "elder", "fig", "grape", "honey",
   "iris", "jade", "kiwi", "lemon", "mango", "navy", "olive", "peach",
   "quartz", "ruby", "silver", "teal", "umber", "violet", "wheat", "yellow",
   "zinc"]

/-- Python `str.lower` over the ASCII range. -/
def lowerStr (s : String) : String :=
  String.mk (s.toList.map Char.toLower)

/-- The second substitution of `generate_name`: each maximal whitespace run
becomes a single underscore (`re.sub` of one-or-more whitespace). The flag
records whether the previous character belonged to a run. -/
def collapseWsGo : Bool → List Char → List Char
  | _, [] => []
  | prevSpace, c :: rest =>
    if isPySpaceChar c then
      (if prevSpace then [] else ['_']) ++ collapseWsGo true rest
    else
      c :: collapseWsGo false rest

/-- The `MigrationManager.generate_name`: strip everything but word characters
and whitespace, lower-case, collapse whitespace runs to single underscores,
and truncate to 100 characters. -/
def generate_name (name : String) : String :=
  let s1 := (name.toList.filter (fun c => isPyWordChar c || isPySpaceChar c)).map Char.toLower
  let s2 := collapseWsGo false s1
  String.mk (s2.take 100)

/-- The statement-selection loop of `generate_descriptive_name`: skip TCL
statements, stop at the first statement flagged needs-migration. -/
def findMigrationStatement : List ValidatedStatement → Option ValidatedStatement
  | [] => none
  | s :: rest =>
    if s.category == SQLQueryCategory.tcl then findMigrationStatement rest
    else if s.needs_migration then some s
    else findMigrationStatement rest

/-- The `MigrationManager.generate_descriptive_name`: build
`command_schema_object` from the selected statement, lower-cased, with schema
defaulting to "public" and object to "unknown" when absent (or empty — Python
truthiness), then sanitize via `generate_name`; without a selectable
statement, fall back to `migration_<word>`. The word drawn by
`random.choice(RANDOM_WORDS)` is passed explicitly. -/
def generate_descriptive_name (validation_result : QueryValidationResults)
    (randomWord : String) : String :=
  match findMigrationStatement validation_result.statements with
  | none => "migration_" ++ randomWord
  | some statement =>
    let command := lowerStr statement.command.value
    let schemaPart :=
      match statement.schema_name with
      | some s => if s.toList.isEmpty then "public" else lowerStr s
      | none => "public"
    let objectPart :=
      match statement.object_type with
      | some s => if s.toList.isEmpty then "unknown" else lowerStr s
      | none => "unknown"
    generate_name (command ++ "_" ++ schemaPart ++ "_" ++ objectPart)

theorem findMigrationStatement_eq_find (l : List ValidatedStatement) :
    findMigrationStatement l =
      l.find? (fun s => !(s.category == SQLQueryCategory.tcl) && s.needs_migration) := by
  induction l with
  | nil => rfl
  | cons s rest ih =>
    by_cases htcl : s.category == SQLQueryCategory.tcl
    · simp [findMigrationStatement, htcl, List.find?, ih]
    · by_cases hmig : s.needs_migration
      · simp [findMigrationStatement, htcl, hmig, List.find?]
      · simp [findMigrationStatement, htcl, hmig, List.find?, ih]

/-- The example statement of the claim: `CREATE TABLE public.users(...)`. -/
def vsCreateUsers : ValidatedStatement :=
  ⟨.ddl, .create, .medium, true, some "users", some "public",
    some "CREATE TABLE public.users(id int)"⟩

def vrCreateUsers : QueryValidationResults :=
  ⟨[vsCreateUsers], .medium, "CREATE TABLE public.users(id int)"⟩

def vrSelectOnly : QueryValidationResults :=
  ⟨[⟨.dql, .select, .low, false, none, none, some "SELECT 1"⟩], .low, "SELECT 1"⟩

/-- C8: the migration name comes from the first statement in batch order that
is not TCL and is flagged needs-migration, rendered as lower-cased
`command_schema_object` (schema defaulting to "public", object to "unknown")
and sanitized by `generate_name` (non-word characters stripped, whitespace
runs collapsed to single underscores, truncation to 100 characters, so every
name is at most 100 characters); without such a statement the name is
`migration_<word>` for the drawn word of the fixed list; and the claim's
worked example yields `create_public_users`. -/
theorem c8_migration_naming :
    ∀ (vr : QueryValidationResults) (w : String), w ∈ RANDOM_WORDS →
      (findMigrationStatement vr.statements =
        vr.statements.find?
          (fun t => !(t.category == SQLQueryCategory.tcl) && t.needs_migration)) ∧
      (vr.statements.find?
          (fun t => !(t.category == SQLQueryCategory.tcl) && t.needs_migration) = none →
        generate_descriptive_name vr w = "migration_" ++ w) ∧
      (∀ s, vr.statements.find?
          (fun t => !(t.category == SQLQueryCategory.tcl) && t.needs_migration) = some s →
        generate_descriptive_name vr w =
          generate_name (lowerStr s.command.value ++ "_" ++
            (match s.schema_name with
             | some str => if str.toList.isEmpty then "public" else lowerStr str
             | none => "public") ++ "_" ++
            (match s.object_type with
             | some str => if str.toList.isEmpty then "unknown" else lowerStr str
             | none => "unknown"))) ∧
      (∀ nm : String, (generate_name nm).length ≤ 100) ∧
      generate_descriptive_name vrCreateUsers w = "create_public_users" := by
  intro vr w hw
  refine ⟨findMigrationStatement_eq_find _, ?_, ?_, ?_, ?_⟩
  · intro hnone
    unfold generate_descriptive_name
    rw [findMigrationStatement_eq_find, hnone]
  · intro s hs
    unfold generate_descriptive_name
    rw [findMigrationStatement_eq_find, hs]
  · intro nm
    simp only [generate_name, String.length]
    have := List.length_take 100
      (collapseWsGo false ((nm.toList.filter (fun c => isPyWordChar c || isPySpaceChar c)).map
        Char.toLower))
    omega
  · rfl

theorem c8_migration_naming_witness :
    "apple" ∈ RANDOM_WORDS ∧
    generate_descriptive_name vrSelectOnly "apple" = "migration_apple" :=
  ⟨by decide, (c8_migration_naming vrSelectOnly "apple" (by decide)).2.1 (by rfl)⟩

/-! ## Query orchestration (services/database/query_manager.py)

The orchestration methods are asynchronous and delegate execution to the
database client. The embedding threads an environment describing the
collaborators and returns, next to the outcome, the ordered list of delegated
`execute_query_async` calls (batch, readonly flag) the method performed. -/

/-- One row set returned by a statement (`StatementResult`); rows are opaque
here. -/
structure StatementResult where
  rows : List String
deriving Repr, DecidableEq

/-- The `QueryResult` of postgres_client.py: one row set per executed statement. -/
structure QueryResult where
  results : List StatementResult
deriving Repr, DecidableEq

/-- A delegated execution call: the validated batch handed to
`execute_query_async` and its readonly flag. -/
abbrev ExecCall := QueryValidationResults × Bool

/-- The collaborators `QueryManager` talks to, as oracles: the current
database-surface safety mode (the `SafetyManager.get_safety_mode` accessor),
the parser, the execution client's outcome for a batch and readonly flag,
and the outcome of `MigrationManager.prepare_migration_query` — the latter is
absent from src/, so it is kept abstract: a fallible call producing the
rendered migration insert and the migration name. -/
structure Env where
  mode : SafetyMode
  parse : String → PgParseOutcome
  execOutcome : QueryValidationResults → Bool → Except PyErr QueryResult
  prepOutcome : QueryValidationResults → String → String → Except PyErr (String × String)

/-- An exception-propagating computation that also records its delegated
execution calls in order. -/
abbrev Logged (a : Type) := Except PyErr a × List ExecCall

/-- Sequencing of logged computations: an exception short-circuits, call
lists concatenate. -/
def Logged.bind {a b : Type} (x : Logged a) (f : a → Logged b) : Logged b :=
  match x with
  | (.error e, calls) => (.error e, calls)
  | (.ok v, calls) =>
    match f v with
    | (r, calls2) => (r, calls ++ calls2)

def Logged.pure {a : Type} (v : a) : Logged a := (.ok v, [])

def Logged.lift {a : Type} (x : Except PyErr a) : Logged a := (x, [])

theorem Logged.bind_error {a b : Type} (e : PyErr) (calls : List ExecCall)
    (f : a → Logged b) : Logged.bind (.error e, calls) f = (.error e, calls) := rfl

theorem Logged.bind_ok {a b : Type} (v : a) (calls : List ExecCall) (f : a → Logged b) :
    Logged.bind (.ok v, calls) f = ((f v).1, calls ++ (f v).2) := by
  show (match f v with | (r, calls2) => (r, calls ++ calls2)) = ((f v).1, calls ++ (f v).2)
  rcases hfv : f v with ⟨r, calls2⟩
  rfl

/-- The `QueryManager.check_readonly`: true exactly when the database-surface
safety mode is SAFE. -/
def check_readonly (mode : SafetyMode) : Bool :=
  mode == SafetyMode.safe

/-- Modelled from the spec: `SafetyManager.validate_operation` of the absent
services/safety/safety_manager.py, per spec §4.3 — the operation must be
allowed under the current mode (EXTREME is refused regardless of
confirmation), and an allowed operation that needs confirmation fails with
"confirmation required" when none is attached. -/
def validate_operation (mode : SafetyMode) (risk_level : OperationRiskLevel)
    (has_confirmation : Bool) : Except PyErr Unit :=
  if is_operation_allowed risk_level mode = false then
    .error (.operationNotAllowedError "operation not allowed")
  else if needs_confirmation risk_level && !has_confirmation then
    .error (.confirmationRequiredError "confirmation required")
  else
    .ok ()

/-- The `QueryManager.handle_query_execution`: compute the readonly flag from the
current mode and delegate the batch to the execution client. -/
def handle_query_execution (env : Env) (validated_query : QueryValidationResults) :
    Logged QueryResult :=
  (env.execOutcome validated_query (check_readonly env.mode),
   [(validated_query, check_readonly env.mode)])

/-- The `QueryManager.handle_migration`: when the batch needs cataloguing,
prepare the migration insert, validate it as a raw query, and execute it;
each step's exception propagates (the `except` clause re-raises). -/
def handle_migration (env : Env) (validation_result : QueryValidationResults)
    (original_query migration_name : String) : Logged Unit :=
  if validation_result.needs_migration = false then
    Logged.pure ()
  else
    Logged.bind (Logged.lift (env.prepOutcome validation_result original_query migration_name))
      (fun prepared =>
        Logged.bind (Logged.lift (validate_query prepared.1 (env.parse prepared.1)))
          (fun migration_vq =>
            Logged.bind (handle_query_execution env migration_vq)
              (fun _ => Logged.pure ())))

/-- The `QueryManager.handle_query`: validate, check the policy, handle the
migration, then execute the caller's batch. -/
def handle_query (env : Env) (query : String) (has_confirmation : Bool)
    (migration_name : String) : Logged QueryResult :=
  Logged.bind (Logged.lift (validate_query query (env.parse query)))
    (fun validated_query =>
      Logged.bind
        (Logged.lift
          (validate_operation env.mode (sql_get_risk_level validated_query) has_confirmation))
        (fun _ =>
          Logged.bind (handle_migration env validated_query query migration_name)
            (fun _ => handle_query_execution env validated_query)))

/-! ## Confirmation store (spec §4.3, §5)

`SafetyManager` and its confirmation store (services/safety/safety_manager.py)
are absent from src/ — only their callers and tests are present — so the
store is modelled from the spec. -/

/-- Modelled from the spec: a stored pending confirmation — the original
operation text and its absolute expiry time (creation time plus the fixed
TTL). -/
structure PendingOperation where
  original_query : String
  expires_at : Nat
deriving Repr, DecidableEq

/-- Modelled from the spec: the confirmation store, a map from confirmation
id to pending operation. -/
structure ConfirmationStore where
  pending : List (String × PendingOperation)
deriving Repr, DecidableEq

/-- The entries still alive at time `now` (lazy purge of expired entries). -/
def purgedOf (store : ConfirmationStore) (now : Nat) : List (String × PendingOperation) :=
  store.pending.filter (fun p => now < p.2.expires_at)

/-- Modelled from the spec: `SafetyManager.get_stored_operation` — return the
stored operation only if present and not expired (expired entries are purged
lazily); the returned entry is consumed (remove-on-read), so that a replay
after the first success reports not found. -/
def get_stored_operation (store : ConfirmationStore) (now : Nat) (cid : String) :
    Option PendingOperation × ConfirmationStore :=
  match (purgedOf store now).find? (fun p => p.1 == cid) with
  | none => (none, ⟨purgedOf store now⟩)
  | some p => (some p.2, ⟨(purgedOf store now).filter (fun q => !(q.1 == cid))⟩)

/-- The `QueryManager.handle_confirmation`: look up the stored operation — an
absent or expired id raises `OperationNotAllowedError` without executing
anything — and re-run the recovered original query through `handle_query`
with `has_confirmation = True`. -/
def handle_confirmation (env : Env) (store : ConfirmationStore) (now : Nat)
    (confirmation_id : String) :
    Except PyErr QueryResult × ConfirmationStore × List ExecCall :=
  match get_stored_operation store now confirmation_id with
  | (none, store2) =>
    (.error (.operationNotAllowedError
      ("Invalid or expired confirmation ID: " ++ confirmation_id)), store2, [])
  | (some operation, store2) =>
    ((handle_query env operation.original_query true "").1, store2,
     (handle_query env operation.original_query true "").2)

theorem get_stored_operation_none {store : ConfirmationStore} {now : Nat} {cid : String}
    (hf : (purgedOf store now).find? (fun p => p.1 == cid) = none) :
    get_stored_operation store now cid = (none, ⟨purgedOf store now⟩) := by
  unfold get_stored_operation
  rw [hf]

theorem get_stored_operation_some {store : ConfirmationStore} {now : Nat} {cid : String}
    {p : String × PendingOperation}
    (hf : (purgedOf store now).find? (fun q => q.1 == cid) = some p) :
    get_stored_operation store now cid =
      (some p.2, ⟨(purgedOf store now).filter (fun q => !(q.1 == cid))⟩) := by
  unfold get_stored_operation
  rw [hf]

theorem handle_confirmation_not_found {env : Env} {store : ConfirmationStore} {now : Nat}
    {cid : String} {store2 : ConfirmationStore}
    (hg : get_stored_operation store now cid = (none, store2)) :
    handle_confirmation env store now cid =
      (.error (.operationNotAllowedError ("Invalid or expired confirmation ID: " ++ cid)),
       store2, []) := by
  unfold handle_confirmation
  rw [hg]

theorem handle_confirmation_found {env : Env} {store : ConfirmationStore} {now : Nat}
    {cid : String} {op : PendingOperation} {store2 : ConfirmationStore}
    (hg : get_stored_operation store now cid = (some op, store2)) :
    handle_confirmation env store now cid =
      ((handle_query env op.original_query true "").1, store2,
       (handle_query env op.original_query true "").2) := by
  unfold handle_confirmation
  rw [hg]

/-! ## Call-log helper lemmas -/

theorem handle_migration_calls (env : Env) (vq : QueryValidationResults)
    (q mn : String) :
    ∀ c ∈ (handle_migration env vq q mn).2, c.2 = check_readonly env.mode := by
  intro c hc
  unfold handle_migration at hc
  by_cases hnm : vq.needs_migration = false
  · rw [if_pos hnm] at hc
    simp [Logged.pure] at hc
  · rw [if_neg hnm] at hc
    cases hp : env.prepOutcome vq q mn with
    | error e =>
      rw [hp] at hc
      simp [Logged.lift, Logged.bind_error] at hc
    | ok prepared =>
      rw [hp] at hc
      simp only [Logged.lift, Logged.bind_ok, List.nil_append] at hc
      cases hv : validate_query prepared.1 (env.parse prepared.1) with
      | error e =>
        rw [hv] at hc
        simp [Logged.bind_error] at hc
      | ok mvq =>
        rw [hv] at hc
        simp only [Logged.bind_ok, List.nil_append] at hc
        simp only [handle_query_execution] at hc
        cases he : env.execOutcome mvq (check_readonly env.mode) with
        | error e2 =>
          rw [he, Logged.bind_error] at hc
          simp at hc
          rw [hc]
        | ok r =>
          rw [he, Logged.bind_ok] at hc
          simp [Logged.pure] at hc
          rw [hc]

theorem handle_query_calls (env : Env) (q : String) (hcf : Bool) (mn : String) :
    ∀ c ∈ (handle_query env q hcf mn).2, c.2 = check_readonly env.mode := by
  intro c hc
  unfold handle_query at hc
  cases h1 : validate_query q (env.parse q) with
  | error e =>
    rw [h1] at hc
    simp [Logged.lift, Logged.bind_error] at hc
  | ok vq =>
    rw [h1] at hc
    simp only [Logged.lift, Logged.bind_ok, List.nil_append] at hc
    cases h2 : validate_operation env.mode (sql_get_risk_level vq) hcf with
    | error e =>
      rw [h2] at hc
      simp [Logged.bind_error] at hc
    | ok u =>
      rw [h2] at hc
      simp only [Logged.bind_ok, List.nil_append] at hc
      rcases hm : handle_migration env vq q mn with ⟨mres, mcalls⟩
      rw [hm] at hc
      cases mres with
      | error e =>
        rw [Logged.bind_error] at hc
        exact handle_migration_calls env vq q mn c (hm ▸ hc)
      | ok u2 =>
        rw [Logged.bind_ok] at hc
        rcases List.mem_append.mp hc with hmem | hmem
        · exact handle_migration_calls env vq q mn c (hm ▸ hmem)
        · simp [handle_query_execution] at hmem
          rw [hmem]

/-- C6: in a batch that needs cataloguing, the migration step runs before the
caller's statements — on success the call log is the migration step's calls
followed by exactly one delegated execution of the caller's batch — and any
exception from preparing, validating or executing the migration insert
propagates out of `handle_query` unchanged, with the log equal to the
migration step's log alone: the caller's execution step is never performed.
The migration step itself delegates at most the single validated migration
insert. -/
theorem c6_migration_fail_closed :
    ∀ (env : Env) (query migration_name : String) (hcf : Bool)
      (vq : QueryValidationResults),
      validate_query query (env.parse query) = .ok vq →
      validate_operation env.mode (sql_get_risk_level vq) hcf = .ok () →
      vq.needs_migration = true →
      (∀ e calls, handle_migration env vq query migration_name = (.error e, calls) →
        handle_query env query hcf migration_name = (.error e, calls)) ∧
      (∀ calls, handle_migration env vq query migration_name = (.ok (), calls) →
        handle_query env query hcf migration_name =
          ((handle_query_execution env vq).1, calls ++ [(vq, check_readonly env.mode)])) ∧
      (∀ res calls, handle_migration env vq query migration_name = (res, calls) →
        calls = [] ∨ ∃ mq mn2 mvq,
          env.prepOutcome vq query migration_name = .ok (mq, mn2) ∧
          validate_query mq (env.parse mq) = .ok mvq ∧
          calls = [(mvq, check_readonly env.mode)]) := by
  intro env query migration_name hcf vq h1 h2 hnm
  refine ⟨?_, ?_, ?_⟩
  · intro e calls hm
    unfold handle_query
    simp only [Logged.lift, h1, Logged.bind_ok, List.nil_append, h2, hm, Logged.bind_error]
  · intro calls hm
    unfold handle_query
    simp only [Logged.lift, h1, Logged.bind_ok, List.nil_append, h2, hm]
    simp [handle_query_execution]
  · intro res calls hm
    have hnm2 : ¬vq.needs_migration = false := by
      rw [hnm]
      intro hfalse
      cases hfalse
    unfold handle_migration at hm
    rw [if_neg hnm2] at hm
    cases hp : env.prepOutcome vq query migration_name with
    | error e2 =>
      rw [hp] at hm
      rw [show Logged.lift (Except.error e2 : Except PyErr (String × String)) =
        ((Except.error e2 : Except PyErr (String × String)), ([] : List ExecCall)) from rfl,
        Logged.bind_error] at hm
      left
      exact (congrArg Prod.snd hm).symm
    | ok prepared =>
      rw [hp] at hm
      simp only [Logged.lift, Logged.bind_ok, List.nil_append] at hm
      cases hv : validate_query prepared.1 (env.parse prepared.1) with
      | error e2 =>
        rw [hv] at hm
        rw [show ((Except.error e2 : Except PyErr QueryValidationResults), ([] : List ExecCall)) =
          ((Except.error e2 : Except PyErr QueryValidationResults), ([] : List ExecCall)) from rfl,
          Logged.bind_error] at hm
        left
        exact (congrArg Prod.snd hm).symm
      | ok mvq =>
        rw [hv] at hm
        simp only [Logged.bind_ok, List.nil_append] at hm
        right
        refine ⟨prepared.1, prepared.2, mvq, by simp [hp], hv, ?_⟩
        simp only [handle_query_execution] at hm
        cases he : env.execOutcome mvq (check_readonly env.mode) with
        | error e3 =>
          rw [he, Logged.bind_error] at hm
          exact (congrArg Prod.snd hm).symm
        | ok r =>
          rw [he, Logged.bind_ok] at hm
          have h2c := (congrArg Prod.snd hm).symm
          simpa [Logged.pure] using h2c

/-- The CREATE node pglast produces for the witness query. -/
def createNode : PgNode := ⟨"CreateStmt", some ⟨some "t", none⟩, [], none⟩

def vqCreate : QueryValidationResults :=
  ⟨[⟨.ddl, .create, .medium, true, some "t", none, some "CREATE TABLE t (x int)"⟩],
   .medium, "CREATE TABLE t (x int)"⟩

/-- A witness environment whose migration preparation fails. -/
def envPrepFail : Env :=
  { mode := .unsafeMode,
    parse := fun s =>
      if s == "CREATE TABLE t (x int)" then .ok (some [⟨some createNode, some 0, some 22⟩])
      else .error "parse",
    execOutcome := fun _ _ => .ok ⟨[]⟩,
    prepOutcome := fun _ _ _ => .error (.validationError "migration prep failure") }

theorem c6_migration_fail_closed_witness :
    validate_query "CREATE TABLE t (x int)" (envPrepFail.parse "CREATE TABLE t (x int)") =
      .ok vqCreate ∧
    validate_operation envPrepFail.mode (sql_get_risk_level vqCreate) false = .ok () ∧
    vqCreate.needs_migration = true ∧
    handle_query envPrepFail "CREATE TABLE t (x int)" false "" =
      (.error (.validationError "migration prep failure"), []) :=
  ⟨rfl, rfl, rfl,
   (c6_migration_fail_closed envPrepFail "CREATE TABLE t (x int)" "" false vqCreate
      rfl rfl rfl).1 (.validationError "migration prep failure") [] rfl⟩

/-- C7: the readonly flag handed to the delegated execution client is
`check_readonly`, true exactly when the database-surface mode is SAFE (and
false in UNSAFE mode); every delegated execution call recorded by
`handle_query_execution`, by `handle_query` (including LOW-risk batches that
passed the policy check, and the migration insert) and by
`handle_confirmation` carries that flag. -/
theorem c7_safe_mode_readonly :
    (∀ m, check_readonly m = true ↔ m = SafetyMode.safe) ∧
    (∀ (env : Env) (vq : QueryValidationResults),
      (handle_query_execution env vq).2 = [(vq, check_readonly env.mode)]) ∧
    (∀ (env : Env) (q : String) (hcf : Bool) (mn : String) (c : ExecCall),
      c ∈ (handle_query env q hcf mn).2 → c.2 = check_readonly env.mode) ∧
    (∀ (env : Env) (store : ConfirmationStore) (now : Nat) (cid : String) (c : ExecCall),
      c ∈ (handle_confirmation env store now cid).2.2 → c.2 = check_readonly env.mode) := by
  refine ⟨?_, fun env vq => rfl, handle_query_calls, ?_⟩
  · intro m
    cases m <;> simp [check_readonly]
  · intro env store now cid c hc
    cases hf : (purgedOf store now).find? (fun p => p.1 == cid) with
    | none =>
      rw [handle_confirmation_not_found (get_stored_operation_none hf)] at hc
      simp at hc
    | some p =>
      rw [handle_confirmation_found (get_stored_operation_some hf)] at hc
      exact handle_query_calls env p.2.original_query true "" c hc

/-- A witness environment that executes any query as a single SELECT. -/
def envConfirm : Env :=
  { mode := .safe,
    parse := fun _ => .ok (some [⟨some selNode, some 0, some 8⟩]),
    execOutcome := fun _ _ => .ok ⟨[]⟩,
    prepOutcome := fun _ _ _ => .error (.validationError "unused") }

def vqSelOnly : QueryValidationResults := ⟨[vsSel], .low, "SELECT 1"⟩

theorem c7_safe_mode_readonly_witness :
    (vqSelOnly, true) ∈ (handle_query envConfirm "SELECT 1" true "").2 ∧
    ((vqSelOnly, true) : ExecCall).2 = check_readonly envConfirm.mode :=
  have hmem : (vqSelOnly, true) ∈ (handle_query envConfirm "SELECT 1" true "").2 :=
    show (vqSelOnly, true) ∈ [(vqSelOnly, true)] from List.mem_singleton.mpr rfl
  ⟨hmem, c7_safe_mode_readonly.2.2.1 envConfirm "SELECT 1" true "" (vqSelOnly, true) hmem⟩

/-- C2: a stored confirmation is usable exactly once — after a call of the
confirmation handler that succeeds, any later call with the same id fails
without executing anything — and an id that is absent, or every entry of
which has its expiry at or before the lookup time, makes the handler fail
with `OperationNotAllowedError` and an empty execution log. -/
theorem c2_confirmation_single_use :
    (∀ (env : Env) (store : ConfirmationStore) (now later : Nat) (cid : String)
      (v : QueryResult),
      (handle_confirmation env store now cid).1 = .ok v →
      (handle_confirmation env (handle_confirmation env store now cid).2.1 later cid).1 =
        .error (.operationNotAllowedError ("Invalid or expired confirmation ID: " ++ cid)) ∧
      (handle_confirmation env (handle_confirmation env store now cid).2.1 later cid).2.2 = []) ∧
    (∀ (env : Env) (store : ConfirmationStore) (now : Nat) (cid : String),
      (∀ p ∈ store.pending, p.1 = cid → p.2.expires_at ≤ now) →
      (handle_confirmation env store now cid).1 =
        .error (.operationNotAllowedError ("Invalid or expired confirmation ID: " ++ cid)) ∧
      (handle_confirmation env store now cid).2.2 = []) := by
  constructor
  · intro env store now later cid v hok
    cases hf : (purgedOf store now).find? (fun p => p.1 == cid) with
    | none =>
      rw [handle_confirmation_not_found (get_stored_operation_none hf)] at hok
      cases hok
    | some p =>
      rw [handle_confirmation_found (get_stored_operation_some hf)]
      have hf2 : (purgedOf ⟨(purgedOf store now).filter (fun q => !(q.1 == cid))⟩ later).find?
          (fun q => q.1 == cid) = none := by
        rw [List.find?_eq_none]
        intro x hx
        have hx1 := List.mem_filter.mp hx
        have hx2 := List.mem_filter.mp hx1.1
        intro hxc
        rw [hxc] at hx2
        simp at hx2
      rw [handle_confirmation_not_found (get_stored_operation_none hf2)]
      exact ⟨rfl, rfl⟩
  · intro env store now cid hexp
    have hf : (purgedOf store now).find? (fun p => p.1 == cid) = none := by
      rw [List.find?_eq_none]
      intro x hx
      have hx1 := List.mem_filter.mp hx
      intro hxc
      have hxeq : x.1 = cid := eq_of_beq hxc
      have hle := hexp x hx1.1 hxeq
      have hlt : now < x.2.expires_at := of_decide_eq_true hx1.2
      omega
    rw [handle_confirmation_not_found (get_stored_operation_none hf)]
    exact ⟨rfl, rfl⟩

def storeConfirm : ConfirmationStore := ⟨[("X", ⟨"SELECT 1", 100⟩)]⟩

def storeExpired : ConfirmationStore := ⟨[("Y", ⟨"SELECT 1", 5⟩)]⟩

theorem c2_confirmation_single_use_witness :
    (handle_confirmation envConfirm storeConfirm 0 "X").1 = .ok ⟨[]⟩ ∧
    (handle_confirmation envConfirm (handle_confirmation envConfirm storeConfirm 0 "X").2.1
        0 "X").1 =
      .error (.operationNotAllowedError ("Invalid or expired confirmation ID: " ++ "X")) ∧
    (handle_confirmation envConfirm (handle_confirmation envConfirm storeConfirm 0 "X").2.1
        0 "X").2.2 = [] ∧
    (∀ p ∈ storeExpired.pending, p.1 = "Y" → p.2.expires_at ≤ 7) ∧
    (handle_confirmation envConfirm storeExpired 7 "Y").1 =
      .error (.operationNotAllowedError ("Invalid or expired confirmation ID: " ++ "Y")) ∧
    (handle_confirmation envConfirm storeExpired 7 "Y").2.2 = [] :=
  ⟨rfl,
   (c2_confirmation_single_use.1 envConfirm storeConfirm 0 0 "X" ⟨[]⟩ rfl).1,
   (c2_confirmation_single_use.1 envConfirm storeConfirm 0 0 "X" ⟨[]⟩ rfl).2,
   by decide,
   (c2_confirmation_single_use.2 envConfirm storeExpired 7 "Y" (by decide)).1,
   (c2_confirmation_single_use.2 envConfirm storeExpired 7 "Y" (by decide)).2⟩
